import Mathlib

/-!
Shallow embedding of the two strategy scripts of this repository,
`volume_reversal_strategy.py` (namespace `VR`) and
`zhangting_huimaqiang.py` (namespace `ZT`), together with theorems
settling the frozen claims about them.

Conventions of the embedding:
* A daily bar is a record of the CSV columns the scripts read
  (date, open, close, high, low, volume, turnover rate, pct change);
  prices and volumes are modelled as exact rationals.
* A security's series is a `List Bar`, positionally indexed, ordered by
  ascending date (the data-model invariant of the input files; index
  labels therefore coincide with positions).
* A pandas rolling mean is `Option`-valued: `none` models NaN for
  indices before the window is full, and any comparison against `none`
  is `false`, matching NaN comparison semantics.
* `pd.read_csv` / malformed-file failures are modelled by an
  `Option (List Bar)` input (`none` = the load raised), and the
  `try/except` wrapper of each per-security task by a match sending
  `Except.error` to `none`.
-/

/-- One daily bar, i.e. one row of a per-security CSV with the columns
the scripts use: 日期, 开盘, 收盘, 最高, 最低, 成交量, 换手率, 涨跌幅. -/
structure Bar where
  date : Nat
  openPrice : ℚ
  close : ℚ
  high : ℚ
  low : ℚ
  volume : ℚ
  turnover : ℚ
  pctChg : ℚ
deriving DecidableEq

/-- Placeholder bar used by the total positional accessors; every index
the scripts access is guarded to be in range, so this default is never
observable in the verified statements. -/
def defaultBar : Bar :=
  { date := 0, openPrice := 0, close := 0, high := 0, low := 0,
    volume := 0, turnover := 0, pctChg := 0 }

/-- Positional access to the 成交量 (volume) column, i.e. vol_arr[i]. -/
def volA (s : List Bar) (i : ℕ) : ℚ := (s.getD i defaultBar).volume

/-- Positional access to the 收盘 (close) column, i.e. close_arr[i]. -/
def closeA (s : List Bar) (i : ℕ) : ℚ := (s.getD i defaultBar).close

/-- Positional access to the 最高 (high) column, i.e. high_arr[i]. -/
def highA (s : List Bar) (i : ℕ) : ℚ := (s.getD i defaultBar).high

/-- Positional access to the 开盘 (open) column. -/
def openA (s : List Bar) (i : ℕ) : ℚ := (s.getD i defaultBar).openPrice

/-- Positional access to the 最低 (low) column. -/
def lowA (s : List Bar) (i : ℕ) : ℚ := (s.getD i defaultBar).low

/-- Boolean test that the lookup name (a char list) contains the
substring "ST", modelling Python's `"ST" in name`. -/
def containsST : List Char → Bool
  | [] => false
  | c :: rest => (decide ((c :: rest).take 2 = ['S', 'T'])) || containsST rest

namespace VR

/-- Rolling 20-bar mean of volume, `df['成交量'].rolling(20).mean()`
evaluated at index `i`: `none` (NaN) before the window is full. -/
def ma20_vol (s : List Bar) (i : ℕ) : Option ℚ :=
  if 19 ≤ i ∧ i < s.length then
    some ((((List.range 20).map fun t => volA s (i - 19 + t)).sum) / 20)
  else none

/-- One element of the vectorised comparison
`vol_arr[k] > ma20_vol[k] * 1.5`; a NaN moving average compares false. -/
def spikeAt (s : List Bar) (k : ℕ) : Bool :=
  match ma20_vol s k with
  | none => false
  | some m => decide (volA s k > m * (3 / 2))

/-- Today-check condition A, 前期活跃:
`(vol_arr[i-5:i] > ma20_vol[i-5:i] * 1.5).any()`. -/
def cond_active (s : List Bar) (i : ℕ) : Bool :=
  (((List.range 5).map fun t => i - 5 + t).map (spikeAt s)).any id

/-- Today-check condition B, 极度缩量:
`vol_arr[i-1] < ma20_vol[i]*0.7 and vol_arr[i-2] < ma20_vol[i]*0.7`. -/
def cond_shrink (s : List Bar) (i : ℕ) : Bool :=
  match ma20_vol s i with
  | none => false
  | some m =>
      decide (volA s (i - 1) < m * (7 / 10)) &&
      decide (volA s (i - 2) < m * (7 / 10))

/-- Today-check condition C, 今日反包:
`close_arr[i] > high_arr[i-1] and close_arr[i] > df['开盘'].iloc[i]`. -/
def cond_reversal (s : List Bar) (i : ℕ) : Bool :=
  decide (closeA s i > highA s (i - 1)) && decide (closeA s i > openA s i)

/-- The standalone today-check signal predicate at index `i`: the
conjunction `cond_active and cond_shrink and cond_reversal` from the
today-signal block of `analyze_stock`. -/
def is_hit (s : List Bar) (i : ℕ) : Bool :=
  cond_active s i && cond_shrink s i && cond_reversal s i

/-- Historical-scan condition `h_active`, the literal copy of the
active condition inside the `for j` loop of `analyze_stock`. -/
def h_active (s : List Bar) (j : ℕ) : Bool :=
  (((List.range 5).map fun t => j - 5 + t).map (spikeAt s)).any id

/-- Historical-scan condition `h_shrink`, the literal copy of the
shrink condition inside the `for j` loop. -/
def h_shrink (s : List Bar) (j : ℕ) : Bool :=
  match ma20_vol s j with
  | none => false
  | some m =>
      decide (volA s (j - 1) < m * (7 / 10)) &&
      decide (volA s (j - 2) < m * (7 / 10))

/-- Historical-scan condition `h_reversal`, the literal copy of the
reversal condition inside the `for j` loop. -/
def h_reversal (s : List Bar) (j : ℕ) : Bool :=
  decide (closeA s j > highA s (j - 1)) && decide (closeA s j > openA s j)

/-- The signal predicate as evaluated inside the historical scan loop:
`if h_active and h_shrink and h_reversal`. -/
def histHit (s : List Bar) (j : ℕ) : Bool :=
  h_active s j && h_shrink s j && h_reversal s j

/-- The index set the historical scan visits:
`range(20, len(df) - 21)` in loop order (ascending). -/
def visitedIndices (n : ℕ) : List ℕ :=
  (List.range (n - 41)).map fun t => 20 + t

/-- One horizon entry of `backtest_virtual_ledger`: the forward return
for holding `days` bars from `signal_idx`, `none` when the future bar
does not exist (`future_idx >= len(df)`). -/
def backtest_virtual_ledger (s : List Bar) (signal_idx days : ℕ) : Option ℚ :=
  if signal_idx + days < s.length then
    some ((closeA s (signal_idx + days) - closeA s signal_idx) / closeA s signal_idx)
  else none

/-- The 20-day profits harvested by the historical scan: for each
visited `j` where the predicate holds and the 20-day ledger entry is
not `None`, the profit is appended, in loop order. -/
def all_history_profits (s : List Bar) : List ℚ :=
  (visitedIndices s.length).filterMap fun j =>
    if histHit s j then backtest_virtual_ledger s j 20 else none

/-- Aggregated hit count, `len(all_history_profits)`. -/
def hit_count (s : List Bar) : ℕ := (all_history_profits s).length

/-- Aggregated win rate: mean of the 0/1 indicators of positive profit,
defined to be 0 when there are no hits. -/
def win_rate (s : List Bar) : ℚ :=
  if 0 < hit_count s then
    (((all_history_profits s).filter fun p => decide (p > 0)).length : ℚ) / (hit_count s : ℚ)
  else 0

/-- Aggregated average return: mean of the profits, 0 when there are no
hits. -/
def avg_ret (s : List Bar) : ℚ :=
  if 0 < hit_count s then (all_history_profits s).sum / (hit_count s : ℚ)
  else 0

/-- Strength label 信号强度: five stars iff win rate above 0.6 and
average return above 0.03, else three stars. -/
inductive Strength
  | fiveStars
  | threeStars
deriving DecidableEq

/-- Advice label 复盘建议: the three-rung ladder on the win rate. -/
inductive Advice
  | strongFocus
  | smallTrial
  | observeOnly
deriving DecidableEq

/-- Strength computed from win rate and average return. -/
def strengthOf (w a : ℚ) : Strength :=
  if w > 3 / 5 ∧ a > 3 / 100 then .fiveStars else .threeStars

/-- Advice computed from the win rate alone. -/
def adviceOf (w : ℚ) : Advice :=
  if w > 7 / 10 then .strongFocus
  else if w > 1 / 2 then .smallTrial
  else .observeOnly

/-- The per-security result dict of `analyze_stock`.  The numeric
`win_rate` and `avg_ret` are carried as rationals; the dict stores them
formatted, which `fmtPercent1` reproduces for the sort model. -/
structure ScanResult where
  date : Nat
  code : List Char
  name : List Char
  price : ℚ
  pctChg : ℚ
  turnover : ℚ
  hit_count : ℕ
  win_rate : ℚ
  avg_ret : ℚ
  strength : Strength
  advice : Advice
deriving DecidableEq

end VR

/-- Name looked up from the names dict with default 未知 (modelled as
the empty name). -/
def lookupName (nameOf : List Char → Option (List Char)) (code : List Char) : List Char :=
  (nameOf code).getD []

/-- Boolean test `code.startswith("30")`. -/
def startsWith30 (code : List Char) : Bool := decide (code.take 2 = ['3', '0'])

/-- Boolean test `code.startswith("688")`. -/
def startsWith688 (code : List Char) : Bool := decide (code.take 3 = ['6', '8', '8'])

namespace VR

/-- The pure body of `analyze_stock` for one already-loaded series:
length guard, eligibility filter (price band, "ST" name, "30" code
prefix), today-signal check, historical scan, aggregation. -/
def analyze_stock (nameOf : List Char → Option (List Char))
    (code : List Char) (s : List Bar) : Option ScanResult :=
  if s.length < 100 then none
  else
    let name := lookupName nameOf code
    let lastBar := s.getD (s.length - 1) defaultBar
    let curr_price := lastBar.close
    if ¬(5 ≤ curr_price ∧ curr_price ≤ 20) ∨ containsST name = true ∨
        startsWith30 code = true then none
    else if ¬(is_hit s (s.length - 1) = true) then none
    else
      some { date := lastBar.date, code := code, name := name,
             price := curr_price, pctChg := lastBar.pctChg,
             turnover := lastBar.turnover,
             hit_count := hit_count s, win_rate := win_rate s,
             avg_ret := avg_ret s,
             strength := strengthOf (win_rate s) (avg_ret s),
             advice := adviceOf (win_rate s) }

end VR

namespace ZT

/-- Rolling 10-bar mean of the close price, `df['收盘'].rolling(10).mean()`
at index `i`; `none` models NaN before the window is full. -/
def MA10 (s : List Bar) (i : ℕ) : Option ℚ :=
  if 9 ≤ i ∧ i < s.length then
    some ((((List.range 10).map fun t => closeA s (i - 9 + t)).sum) / 10)
  else none

/-- Rolling 20-bar mean of the close price, `df['收盘'].rolling(20).mean()`
at index `i`. -/
def MA20 (s : List Bar) (i : ℕ) : Option ℚ :=
  if 19 ≤ i ∧ i < s.length then
    some ((((List.range 20).map fun t => closeA s (i - 19 + t)).sum) / 20)
  else none

/-- Single-day percentage gain, `df['收盘'].pct_change() * 100` at index
`i`; `none` models the NaN at the first row. -/
def pctUp (s : List Bar) (i : ℕ) : Option ℚ :=
  if 1 ≤ i ∧ i < s.length then
    some ((closeA s i - closeA s (i - 1)) / closeA s (i - 1) * 100)
  else none

/-- Limit-up candidate indices: all indices with single-day gain above
9.5 percent, then restricted to the trailing window
`len(df) - i <= 15`, in ascending order (as in the source: the full
filter first, the distance filter second). -/
def zt_indices (s : List Bar) : List ℕ :=
  (((List.range s.length).filter fun i =>
      match pctUp s i with
      | none => false
      | some p => decide (p > 95 / 10)).filter fun i =>
        decide (s.length - i ≤ 15))

/-- Advice label of the scoring rubric. -/
inductive Advice
  | focus
  | trial
  | observe
deriving DecidableEq

/-- Advice from the score ladder: at least 70 is 重点关注/一击必中, at
least 50 is 轻仓试错, else 观察. -/
def adviceOf (score : ℕ) : Advice :=
  if 70 ≤ score then .focus
  else if 50 ≤ score then .trial
  else .observe

/-- The 30-point rubric item: close within 2 percent of the 10-day
moving average at the last bar (a NaN mean scores 0, as NaN
comparisons are false). -/
def score10 (s : List Bar) (curr_close : ℚ) : ℕ :=
  match MA10 s (s.length - 1) with
  | none => 0
  | some m => if |curr_close - m| / curr_close < 1 / 50 then 30 else 0

/-- The 20-point rubric item: close above the 20-day moving average at
the last bar. -/
def score20 (s : List Bar) (curr_close : ℚ) : ℕ :=
  match MA20 s (s.length - 1) with
  | none => 0
  | some m => if curr_close > m then 20 else 0

/-- The per-security result dict of the limit-up variant (the constant
"等待验证" per-horizon strings carry no information and are omitted). -/
structure ZTResult where
  code : List Char
  name : List Char
  advice : Advice
  score : ℕ
deriving DecidableEq

/-- The pure body of the limit-up variant's `analyze_stock` for one
already-loaded series.  The security code is the parameter `code`
(read from the 股票代码 column in the source); the series is assumed
date-sorted with positional index labels (the data-model invariant, so
`sort_values('日期')` is the identity and `.loc` slices coincide with
positional ones).  Division is exact rational division. -/
def analyze_stock (nameOf : List Char → Option (List Char))
    (code : List Char) (s : List Bar) : Option ZTResult :=
  if s.length < 30 then none
  else if startsWith30 code || startsWith688 code then none
  else
    let last_close := closeA s (s.length - 1)
    if ¬(5 ≤ last_close ∧ last_close ≤ 20) then none
    else
      match (zt_indices s).getLast? with
      | none => none
      | some zt_idx =>
        if s.length ≤ zt_idx + 1 then none
        else
          let zt_vol := volA s zt_idx
          let zt_low := lowA s zt_idx
          let curr_vol := volA s (s.length - 1)
          let curr_close := closeA s (s.length - 1)
          if curr_close < zt_low then none
          else if curr_vol / zt_vol > 35 / 100 then none
          else
            let score :=
              (if curr_vol / zt_vol < 25 / 100 then 40 else 0) +
              score10 s curr_close + score20 s curr_close
            some { code := code, name := lookupName nameOf code,
                   advice := adviceOf score, score := score }

end ZT

/-- Exceptions the scripts can hit: a failed or malformed CSV load
inside a per-security task, and the missing names file at the driver. -/
inductive PyError
  | parseError
  | fileNotFound
deriving DecidableEq

namespace VR

/-- The fallible body of the try-block of `analyze_stock`: loading the
file can raise (modelled by a `none` input), after which the analysis
of the loaded series is pure. -/
def analyze_stock_body (nameOf : List Char → Option (List Char))
    (code : List Char) (input : Option (List Bar)) :
    Except PyError (Option ScanResult) :=
  match input with
  | none => .error .parseError
  | some s => .ok (analyze_stock nameOf code s)

/-- The `try/except Exception: return None` wrapper around the body:
any raised error becomes a `None` result for that security. -/
def analyze_stock_safe (nameOf : List Char → Option (List Char))
    (code : List Char) (input : Option (List Bar)) : Option ScanResult :=
  match analyze_stock_body nameOf code input with
  | .error _ => none
  | .ok r => r

end VR

namespace ZT

/-- The fallible body of the try-block of the limit-up variant's
`analyze_stock`. -/
def analyze_stock_body (nameOf : List Char → Option (List Char))
    (code : List Char) (input : Option (List Bar)) :
    Except PyError (Option ZTResult) :=
  match input with
  | none => .error .parseError
  | some s => .ok (analyze_stock nameOf code s)

/-- The `try/except ... return None` wrapper of the limit-up variant. -/
def analyze_stock_safe (nameOf : List Char → Option (List Char))
    (code : List Char) (input : Option (List Bar)) : Option ZTResult :=
  match analyze_stock_body nameOf code input with
  | .error _ => none
  | .ok r => r

end ZT

/-- Formatting of a nonnegative rational as a one-decimal percentage,
modelling the Python f-string that renders win_rate*100 with one digit
after the point followed by a percent sign.  The value is scaled to
tenths of a percent and rounded to the nearest integer; for the exact
values appearing in win rates this matches Python's float formatting. -/
def fmtPercent1 (q : ℚ) : List Char :=
  let t := (round (q * 1000)).toNat
  Nat.toDigits 10 (t / 10) ++ ['.'] ++ Nat.toDigits 10 (t % 10) ++ ['%']

/-- Lexicographic comparison of char lists by code point, the string
ordering Python and pandas use when sorting a string-typed column. -/
def charsLt : List Char → List Char → Bool
  | [], [] => false
  | [], _ :: _ => true
  | _ :: _, [] => false
  | a :: as, b :: bs =>
      if a.toNat < b.toNat then true
      else if b.toNat < a.toNat then false
      else charsLt as bs

/-- The name-lookup table: rows of (code, display name), as loaded from
stock_names.csv. -/
def NamesTable := List (List Char × List Char)

/-- Dictionary lookup in the names table. -/
def findName (tbl : NamesTable) (code : List Char) : Option (List Char) :=
  match tbl with
  | [] => none
  | (c, n) :: rest => if c = code then some n else findName rest code

namespace VR

/-- The sort key of the final table: the 历史20日胜率 column, which the
result dict stores as the formatted percentage STRING of the win rate,
not as a number. -/
def rowKey (r : ScanResult) : List Char := fmtPercent1 r.win_rate

/-- Insertion step for the descending sort on the string key: a row is
placed before the first row whose key is strictly smaller. -/
def insertDescByKey (r : ScanResult) : List ScanResult → List ScanResult
  | [] => [r]
  | x :: xs =>
      if charsLt (rowKey x) (rowKey r) then r :: x :: xs
      else x :: insertDescByKey r xs

/-- Model of `sort_values(by=历史20日胜率, ascending=False)` on the
result rows: descending in the lexicographic order of the formatted
win-rate strings.  (pandas' default quicksort fixes no tie order; on
rows with pairwise distinct keys any correct descending sort, such as
this insertion sort, produces the same output.) -/
def sort_values_desc (rows : List ScanResult) : List ScanResult :=
  rows.foldr insertDescByKey []

/-- Outcome of one run of `main`: the missing-names-file early return,
or a finished run with the sorted result rows. -/
inductive RunOutcome
  | missingNamesFile
  | finished (rows : List ScanResult)
deriving DecidableEq

/-- The driver `main`: if the names file is absent the run prints the
error and returns before any per-security work; otherwise every file is
analysed (each task converting its own failures to no result), the
`None` results are dropped and the rest sorted by the win-rate string,
descending. -/
def main (namesFile : Option NamesTable)
    (files : List (List Char × Option (List Bar))) : RunOutcome :=
  match namesFile with
  | none => .missingNamesFile
  | some tbl =>
      .finished (sort_values_desc
        (files.filterMap fun cf => analyze_stock_safe (findName tbl) cf.1 cf.2))

end VR

namespace ZT

/-- Insertion step for Python's stable descending sort on the score:
a row is placed before the first row whose score is not larger. -/
def insertDescByScore (r : ZTResult) : List ZTResult → List ZTResult
  | [] => [r]
  | x :: xs =>
      if x.score ≤ r.score then r :: x :: xs
      else x :: insertDescByScore r xs

/-- Model of `valid_results.sort(key=score, reverse=True)`: stable
descending insertion sort on the score. -/
def sortByScoreDesc (rows : List ZTResult) : List ZTResult :=
  rows.foldr insertDescByScore []

/-- The driver `run` of the limit-up variant: it loads the names file
with a bare `pd.read_csv` outside any try-block, so an absent file
raises an uncaught FileNotFoundError (the `Except.error` outcome)
before any per-security work; otherwise the fan-out runs and results
are sorted by score. -/
def run (namesFile : Option NamesTable)
    (files : List (List Char × Option (List Bar))) :
    Except PyError (List ZTResult) :=
  match namesFile with
  | none => .error .fileNotFound
  | some tbl =>
      .ok (sortByScoreDesc
        (files.filterMap fun cf => analyze_stock_safe (findName tbl) cf.1 cf.2))

end ZT

/-- A concrete 100-bar series (the minimum history the volume-reversal
variant accepts).  Flat at close 10 and volume 100 except: a volume
spike of 300 at index 94 (prior activity), volumes of 10 at indices 97
and 98 (the two-bar shrink), and a final bar opening at 11 and closing
at 12 above the previous high of 10 (the reversal).  Every earlier
index fails the reversal condition, so the historical scan finds no
hit. -/
def sampleVRBars : List Bar :=
  (List.range 100).map fun k =>
    { date := k,
      openPrice := if k = 99 then 11 else 10,
      close := if k = 99 then 12 else 10,
      high := 10, low := 9,
      volume := if k = 94 then 300 else if k = 97 ∨ k = 98 then 10 else 100,
      turnover := 1, pctChg := 0 }

/-- A concrete 30-bar series (the minimum history the limit-up variant
accepts).  Flat at close 10 and volume 50 except: index 28 closes at
11 (a 10 percent limit-up day) with volume 100 and low 5, and index 29
closes at 11 with volume 34 — a volume fraction of 0.34 of the
limit-up day, which is above one third but within the 0.35 cutoff the
code applies. -/
def sampleZTBars : List Bar :=
  (List.range 30).map fun k =>
    { date := k,
      openPrice := 10,
      close := if k = 28 ∨ k = 29 then 11 else 10,
      high := 12, low := if k = 28 then 5 else 9,
      volume := if k = 28 then 100 else if k = 29 then 34 else 50,
      turnover := 1, pctChg := 0 }

/-- A concrete six-digit security code outside the excluded prefixes. -/
def sampleCode : List Char := ['0', '0', '0', '0', '0', '1']

/-- A names dict mapping the sample code to a plain (non-ST) name. -/
def vrNameOf : List Char → Option (List Char) :=
  fun c => if c = sampleCode then some ['A', 'B'] else none

/-- A names dict mapping the sample code to a display name that
contains the substring "ST". -/
def ztNameOf : List Char → Option (List Char) :=
  fun c => if c = sampleCode then some ['S', 'T', 'X'] else none

/-- A concrete emitted result row with a 20-day historical win rate of
100 percent (formatted "100.0%"). -/
def rowFull : VR.ScanResult :=
  { date := 0, code := sampleCode, name := ['A'], price := 10, pctChg := 0,
    turnover := 1, hit_count := 3, win_rate := 1, avg_ret := 1 / 10,
    strength := .fiveStars, advice := .strongFocus }

/-- A concrete emitted result row with a 20-day historical win rate of
50 percent (formatted "50.0%"). -/
def rowHalf : VR.ScanResult :=
  { date := 0, code := sampleCode, name := ['A'], price := 10, pctChg := 0,
    turnover := 1, hit_count := 2, win_rate := 1 / 2, avg_ret := 0,
    strength := .threeStars, advice := .observeOnly }

/-- Characterisation of the scan range: an index is visited exactly
when it is at least 20 and at least 22 bars from the end. -/
theorem mem_visitedIndices (n j : ℕ) :
    j ∈ VR.visitedIndices n ↔ 20 ≤ j ∧ j + 22 ≤ n := by
  simp only [VR.visitedIndices, List.mem_map, List.mem_range]
  constructor
  · rintro ⟨t, ht, rfl⟩; omega
  · rintro ⟨h1, h2⟩; exact ⟨j - 20, by omega, by omega⟩

/-- The scan visits its indices in strictly ascending order. -/
theorem visitedIndices_pairwise (n : ℕ) :
    List.Pairwise (· < ·) (VR.visitedIndices n) := by
  simp only [VR.visitedIndices]
  exact (List.pairwise_lt_range _).map _ (by intro a b hab; omega)

/-- A guarded filterMap is the filter followed by the unguarded
filterMap. -/
theorem filterMap_guard_eq {α β : Type} (p : α → Bool) (f : α → Option β) (l : List α) :
    (l.filterMap fun j => if p j then f j else none) = (l.filter p).filterMap f := by
  induction l with
  | nil => rfl
  | cons a l ih =>
      by_cases h : p a = true
      · simp only [List.filterMap_cons, List.filter_cons, h, if_pos]
        cases hfa : f a <;> simp [hfa, ih]
      · simp only [List.filterMap_cons, List.filter_cons, h]
        simp [ih, h]

/-- When the guarded value is defined at every list element, the
guarded filterMap keeps exactly the elements passing the guard. -/
theorem filterMap_guard_length {α β : Type} (p : α → Bool) (f : α → Option β)
    (l : List α) (hl : ∀ j ∈ l, (f j).isSome = true) :
    (l.filterMap fun j => if p j then f j else none).length = (l.filter p).length := by
  induction l with
  | nil => rfl
  | cons a l ih =>
      have ha := hl a (List.mem_cons_self a l)
      have htail : ∀ j ∈ l, (f j).isSome = true :=
        fun j hj => hl j (List.mem_cons_of_mem a hj)
      by_cases h : p a = true
      · cases hfa : f a with
        | none => rw [hfa] at ha; cases ha
        | some b =>
            simp [List.filterMap_cons, List.filter_cons, h, hfa, ih htail]
      · simp [List.filterMap_cons, List.filter_cons, h, ih htail]

/-- C1: evaluator symmetry.  For every series and every index, the
three-condition signal predicate computed inside the historical scan
loop (prior 5-bar activity at 1.5x the 20-bar volume MA, the two bars
before the index both below 0.7x the 20-bar volume MA at the index,
and close above both the previous high and the day's open) yields the
same boolean as the standalone today-check at that index with the same
thresholds.  The two code blocks are literal copies of one another, so
the equality is definitional. -/
theorem claim_C1_evaluator_symmetry (s : List Bar) (j : ℕ) :
    VR.histHit s j = VR.is_hit s j := rfl

section
attribute [local semireducible] Rat.add Rat.sub Rat.mul Rat.inv
set_option maxRecDepth 1000000

/-- C2 is false as stated: on the concrete 100-bar series, index
98 = len - 2 lies inside the range the claim says the scan visits, but
the loop `range(20, len(df) - 21)` stops at len - 22 = 78 and never
visits it. -/
theorem claim_C2_counterexample :
    sampleVRBars.length = 100 ∧ 20 ≤ 98 ∧ 98 ≤ sampleVRBars.length - 2 ∧
      ¬ (98 ∈ VR.visitedIndices sampleVRBars.length) := by decide

end

/-- C2 (amended): the historical scan visits exactly the indices from
20 (full history, lower bound max(20, len - lookback) with unbounded
lookback) up to len - 22 inclusive, in strictly ascending order,
calling the signal evaluator at each visited index, and the harvested
profits are the ledger entries of exactly the evaluator's hits over
that range in ascending index order. -/
theorem claim_C2_scan_range (s : List Bar) :
    (∀ j, j ∈ VR.visitedIndices s.length ↔ 20 ≤ j ∧ j + 22 ≤ s.length) ∧
    List.Pairwise (· < ·) (VR.visitedIndices s.length) ∧
    VR.all_history_profits s =
      ((VR.visitedIndices s.length).filter fun j => VR.histHit s j).filterMap
        (fun j => VR.backtest_virtual_ledger s j 20) :=
  ⟨fun j => mem_visitedIndices _ j, visitedIndices_pairwise _,
    filterMap_guard_eq _ _ _⟩

/-- C3: for every series, hit index and horizon in the fixed set
7/14/20/60, the forward return is undefined (None) exactly when the
target bar does not exist, and otherwise equals
(close at target minus close at hit) over close at hit, exactly. -/
theorem claim_C3_forward_return (s : List Bar) (h d : ℕ) (hd : d ∈ [7, 14, 20, 60]) :
    (VR.backtest_virtual_ledger s h d = none ↔ s.length ≤ h + d) ∧
    (h + d < s.length →
      VR.backtest_virtual_ledger s h d =
        some ((closeA s (h + d) - closeA s h) / closeA s h)) := by
  unfold VR.backtest_virtual_ledger
  constructor
  · split
    · next hlt => simp; omega
    · next hge => simp; omega
  · intro hlt; rw [if_pos hlt]

section
attribute [local semireducible] Rat.add Rat.sub Rat.mul Rat.inv
set_option maxRecDepth 1000000

/-- Witness for C3 at a concrete input: on the 100-bar sample series
with hit index 0 and horizon 7 the future bar exists and the exact
quotient is returned. -/
theorem claim_C3_witness :
    VR.backtest_virtual_ledger sampleVRBars 0 7 =
      some ((closeA sampleVRBars 7 - closeA sampleVRBars 0) / closeA sampleVRBars 0) :=
  (claim_C3_forward_return sampleVRBars 0 7 (by decide)).2 (by decide)

/-- C4 evaluated at the failing input: two emitted rows with win rates
1 and 1/2.  The final table is sorted on the FORMATTED percent string,
so the comparison is lexicographic: "100.0%" is smaller than "50.0%"
(the code point of 1 precedes that of 5), and the descending sort puts
the 50-percent row first although its win rate is lower — contradicting
the claim and the code's own comment, which call for descending order
of the numeric win rate. -/
theorem claim_C4_string_sort :
    rowFull.win_rate > rowHalf.win_rate ∧
    charsLt (VR.rowKey rowFull) (VR.rowKey rowHalf) = true ∧
    VR.sort_values_desc [rowFull, rowHalf] = [rowHalf, rowFull] := by
  refine ⟨by decide, by decide, by decide⟩

/-- C6 evaluated at the failing input: the limit-up variant's
`analyze_stock` never inspects the display name, so a security whose
looked-up name contains "ST" still produces a result when the numeric
conditions hold — although the code's own comment (排除ST) and the
claim say ST names are excluded.  (The volume-reversal variant does
exclude them; see `vr_st_name_excluded`.) -/
theorem claim_C6_st_not_excluded :
    containsST (lookupName ztNameOf sampleCode) = true ∧
    (ZT.analyze_stock ztNameOf sampleCode sampleZTBars).isSome = true := by
  decide

/-- C5 is false as stated: on the concrete 30-bar series the most
recent limit-up day is index 28 with volume 100, the current volume is
34 — NOT below one third of the limit-up volume — and a result is
still emitted, because the code's cutoff is 0.35, not 1/3. -/
theorem claim_C5_counterexample :
    (ZT.zt_indices sampleZTBars).getLast? = some 28 ∧
    volA sampleZTBars 29 = 34 ∧ volA sampleZTBars 28 = 100 ∧
    ¬ (volA sampleZTBars 29 < volA sampleZTBars 28 * (1 / 3)) ∧
    (ZT.analyze_stock ztNameOf sampleCode sampleZTBars).isSome = true := by
  decide

end

/-- C5 (amended): the limit-up variant yields a result only if the
latest close is not below the low of the most recent limit-up day
(single-day gain above 9.5 percent) within the trailing 15-bar window,
and the current volume is at most 0.35 of that limit-up day's volume
(the code's cutoff; not the claimed one-third). -/
theorem claim_C5_emission_gate (nameOf : List Char → Option (List Char))
    (code : List Char) (s : List Bar) (r : ZT.ZTResult)
    (h : ZT.analyze_stock nameOf code s = some r) :
    ∃ zt_idx, (ZT.zt_indices s).getLast? = some zt_idx ∧
      lowA s zt_idx ≤ closeA s (s.length - 1) ∧
      ¬ (volA s (s.length - 1) / volA s zt_idx > 35 / 100) := by
  unfold ZT.analyze_stock at h
  simp only [] at h
  split at h
  · exact Option.noConfusion h
  split at h
  · exact Option.noConfusion h
  split at h
  · exact Option.noConfusion h
  split at h
  · exact Option.noConfusion h
  next zt_idx heq =>
    split at h
    · exact Option.noConfusion h
    split at h
    · exact Option.noConfusion h
    split at h
    · exact Option.noConfusion h
    next hnotlow hnotfrac =>
      exact ⟨zt_idx, heq, le_of_not_lt hnotlow, hnotfrac⟩

section
attribute [local semireducible] Rat.add Rat.sub Rat.mul Rat.inv
set_option maxRecDepth 1000000

/-- Witness for C5 (amended) at a concrete input: the 30-bar sample
series is emitted, so the gate conditions hold there. -/
theorem claim_C5_witness :
    ∃ zt_idx, (ZT.zt_indices sampleZTBars).getLast? = some zt_idx ∧
      lowA sampleZTBars zt_idx ≤ closeA sampleZTBars (sampleZTBars.length - 1) ∧
      ¬ (volA sampleZTBars (sampleZTBars.length - 1) / volA sampleZTBars zt_idx
          > 35 / 100) :=
  claim_C5_emission_gate ztNameOf sampleCode sampleZTBars
    { code := sampleCode, name := ['S', 'T', 'X'],
      advice := ZT.Advice.observe, score := 20 }
    (by decide)

end

/-- C7: when a security passes the filters, today's signal fires and
the historical scan found zero hits, the aggregator defines both the
win rate and the average return as exactly 0 (never NaN, never
undefined) and the security is still emitted with those zero
statistics (and the corresponding bottom-tier labels). -/
theorem claim_C7_zero_hit_stats (nameOf : List Char → Option (List Char))
    (code : List Char) (s : List Bar)
    (hlen : 100 ≤ s.length)
    (hlo : 5 ≤ closeA s (s.length - 1)) (hhi : closeA s (s.length - 1) ≤ 20)
    (hst : containsST (lookupName nameOf code) = false)
    (h30 : startsWith30 code = false)
    (hsig : VR.is_hit s (s.length - 1) = true)
    (hzero : VR.hit_count s = 0) :
    VR.analyze_stock nameOf code s = some
      { date := (s.getD (s.length - 1) defaultBar).date, code := code,
        name := lookupName nameOf code,
        price := closeA s (s.length - 1),
        pctChg := (s.getD (s.length - 1) defaultBar).pctChg,
        turnover := (s.getD (s.length - 1) defaultBar).turnover,
        hit_count := 0, win_rate := 0, avg_ret := 0,
        strength := VR.Strength.threeStars,
        advice := VR.Advice.observeOnly } := by
  have hw : VR.win_rate s = 0 := by simp [VR.win_rate, hzero]
  have ha : VR.avg_ret s = 0 := by simp [VR.avg_ret, hzero]
  have hstr : VR.strengthOf 0 0 = VR.Strength.threeStars := by
    rw [VR.strengthOf, if_neg]; norm_num
  have hadv : VR.adviceOf 0 = VR.Advice.observeOnly := by
    rw [VR.adviceOf, if_neg, if_neg] <;> norm_num
  unfold VR.analyze_stock
  rw [if_neg (by omega)]
  simp only []
  rw [if_neg (by
    rintro (hc | hc | hc)
    · exact hc ⟨hlo, hhi⟩
    · rw [hst] at hc; exact Bool.noConfusion hc
    · rw [h30] at hc; exact Bool.noConfusion hc)]
  rw [if_neg (by simp [hsig])]
  simp only [hzero, hw, ha, hstr, hadv]
  rfl

section
attribute [local semireducible] Rat.add Rat.sub Rat.mul Rat.inv
set_option maxRecDepth 1000000

/-- Witness for C7 at a concrete input: the 100-bar sample series fires
today's signal, has no historical hit, and is emitted with zero
statistics. -/
theorem claim_C7_witness :
    VR.analyze_stock vrNameOf sampleCode sampleVRBars = some
      { date := (sampleVRBars.getD (sampleVRBars.length - 1) defaultBar).date,
        code := sampleCode, name := lookupName vrNameOf sampleCode,
        price := closeA sampleVRBars (sampleVRBars.length - 1),
        pctChg := (sampleVRBars.getD (sampleVRBars.length - 1) defaultBar).pctChg,
        turnover := (sampleVRBars.getD (sampleVRBars.length - 1) defaultBar).turnover,
        hit_count := 0, win_rate := 0, avg_ret := 0,
        strength := VR.Strength.threeStars,
        advice := VR.Advice.observeOnly } :=
  claim_C7_zero_hit_stats vrNameOf sampleCode sampleVRBars
    (by decide) (by decide) (by decide) (by decide) (by decide) (by decide) (by decide)

end

/-- C8: any exception raised inside a per-security analysis body is
caught by that task's try/except and converted to a no-result (`none`)
return, in both variants; the wrapper is total, so no per-security
failure reaches the driver. -/
theorem claim_C8_per_security_errors (nameOf : List Char → Option (List Char))
    (code : List Char) (input : Option (List Bar)) :
    (∀ e, VR.analyze_stock_body nameOf code input = Except.error e →
        VR.analyze_stock_safe nameOf code input = none) ∧
    (∀ e, ZT.analyze_stock_body nameOf code input = Except.error e →
        ZT.analyze_stock_safe nameOf code input = none) := by
  constructor <;> intro e he <;>
    simp [VR.analyze_stock_safe, ZT.analyze_stock_safe, he]

/-- Witness for C8 at a concrete input: a failing load (malformed
file) yields `none` from both safe wrappers. -/
theorem claim_C8_witness :
    VR.analyze_stock_safe vrNameOf sampleCode none = none ∧
    ZT.analyze_stock_safe ztNameOf sampleCode none = none :=
  ⟨(claim_C8_per_security_errors vrNameOf sampleCode none).1 PyError.parseError rfl,
   (claim_C8_per_security_errors ztNameOf sampleCode none).2 PyError.parseError rfl⟩

/-- C9 is false as stated for the limit-up variant: its driver loads
the names file outside any try-block, so an absent file makes the run
terminate by an uncaught FileNotFoundError instead of a reported clean
abort. -/
theorem claim_C9_counterexample :
    ZT.run none [] = Except.error PyError.fileNotFound := rfl

/-- C9 (amended): with the names file absent, both drivers abort
before the per-security fan-out; the volume-reversal driver reports
the condition and returns cleanly, while the limit-up driver
terminates by raising an uncaught FileNotFoundError. -/
theorem claim_C9_missing_names (files : List (List Char × Option (List Bar))) :
    VR.main none files = VR.RunOutcome.missingNamesFile ∧
    ZT.run none files = Except.error PyError.fileNotFound :=
  ⟨rfl, rfl⟩

/-- C10: for every index the volume-reversal historical scan visits,
the 20-day forward return is defined (the None branch of the ledger is
unreachable at horizon 20), and consequently the hit count equals
exactly the number of visited indices where the predicate held — no
hit is silently dropped for lack of future bars. -/
theorem claim_C10_no_hit_dropped (s : List Bar) (j : ℕ)
    (hj : j ∈ VR.visitedIndices s.length) :
    (VR.backtest_virtual_ledger s j 20).isSome = true ∧
    VR.hit_count s =
      ((VR.visitedIndices s.length).filter fun i => VR.histHit s i).length := by
  have hall : ∀ i ∈ VR.visitedIndices s.length,
      (VR.backtest_virtual_ledger s i 20).isSome = true := by
    intro i hi
    have hmem := (mem_visitedIndices s.length i).mp hi
    unfold VR.backtest_virtual_ledger
    rw [if_pos (by omega)]; rfl
  refine ⟨hall j hj, ?_⟩
  simpa [VR.hit_count, VR.all_history_profits] using
    filterMap_guard_length (fun i => VR.histHit s i)
      (fun i => VR.backtest_virtual_ledger s i 20) (VR.visitedIndices s.length) hall

/-- Witness for C10 at a concrete input: index 20 is visited on the
100-bar sample series and its 20-day ledger entry is defined. -/
theorem claim_C10_witness :
    (VR.backtest_virtual_ledger sampleVRBars 20 20).isSome = true ∧
    VR.hit_count sampleVRBars =
      ((VR.visitedIndices sampleVRBars.length).filter
        fun i => VR.histHit sampleVRBars i).length :=
  claim_C10_no_hit_dropped sampleVRBars 20 (by decide)

/-- Companion fact to C6: the volume-reversal variant DOES exclude a
security whose looked-up display name contains "ST". -/
theorem vr_st_name_excluded (nameOf : List Char → Option (List Char))
    (code : List Char) (s : List Bar)
    (hst : containsST (lookupName nameOf code) = true) :
    VR.analyze_stock nameOf code s = none := by
  unfold VR.analyze_stock
  split
  · rfl
  simp only []
  rw [if_pos (Or.inr (Or.inl hst))]
